import Mathlib

/-!
Verification of the emotion-to-haptic pattern pipeline of the
try_adk_agent repository.

Numeric values that the Python source stores as floats are embedded as
exact rationals (ℚ); the constants involved (0.2, 0.8, 1.1, 1.2, the
base-pattern tables) are all decimal literals, so the rational embedding
matches the source arithmetic symbolically.

The embedded components:
* `generate_vibration_pattern` — src/mcp_servers/vibration_server_wifi.py
  (the same pattern-generation arithmetic appears in src/agent/agent.py);
* `VibrationPatternGenerator.from_emotion_values` and
  `VibrationPatternGenerator.create_custom_pattern` —
  src/src/devices/vibration_patterns.py;
* `ArduinoController.connect` / `send_pattern` / `get_status` —
  src/src/devices/arduino_controller.py;
* `VibrationSensorControllerWiFi.connect` —
  src/vibration_sensor_controller_wifi.py;
* `BaseController._retry_request` — src/src/devices/base_controller.py.

Network interaction is embedded by making the device's answer to the
issued request an explicit argument: an answer is either a raised
transport exception or an HTTP reply with a status code and an optional
parsed JSON body (`none` standing for a body on which `response.json()`
raises).  Every embedded operation is then a total function, which is
exactly the "never raises to the caller" discipline of the source.
-/

/-- The four emotion channels, in the fixed dict-insertion order of the
source: joy, fun, anger, sad.  (`fun` is a Lean keyword, hence `fun_`.) -/
inductive Emotion where
  | joy
  | fun_
  | anger
  | sad
deriving DecidableEq, Repr

/-- An emotion vector: the four 0–5 integer values supplied as tool
arguments (`GenerateVibrationArgs`). -/
structure EmotionVector where
  joy : ℕ
  fun_ : ℕ
  anger : ℕ
  sad : ℕ
deriving DecidableEq, Repr

/-- `emotions.items()` of the source: the four (key, value) pairs in dict
insertion order joy, fun, anger, sad. -/
def emotionItems (e : EmotionVector) : List (Emotion × ℕ) :=
  [(Emotion.joy, e.joy), (Emotion.fun_, e.fun_),
   (Emotion.anger, e.anger), (Emotion.sad, e.sad)]

/-- Python's `max(items, key=lambda x: x[1])`: scan the list keeping the
current best, replacing it only on a strictly greater value, so the
first-seen maximum wins. -/
def pyMax : Emotion × ℕ → List (Emotion × ℕ) → Emotion × ℕ
  | best, [] => best
  | best, x :: xs => pyMax (if x.2 > best.2 then x else best) xs

/-- `max(emotions.items(), key=lambda x: x[1])` over the four fixed keys:
the dominant emotion together with its value. -/
def dominant (e : EmotionVector) : Emotion × ℕ :=
  pyMax (Emotion.joy, e.joy)
    [(Emotion.fun_, e.fun_), (Emotion.anger, e.anger), (Emotion.sad, e.sad)]

/-- One row of the base vibration-pattern table of
`generate_vibration_pattern` (vibration_server_wifi.py lines 60–89). -/
structure BasePattern where
  pattern : String
  intensity_base : ℚ
  frequency_base : ℚ
  duration_base : ℚ
  description : String
deriving DecidableEq, Repr

/-- The `vibration_patterns` dict of vibration_server_wifi.py, keyed by
the dominant emotion. -/
def vibration_patterns : Emotion → BasePattern
  | Emotion.joy => ⟨"pulse", 0.6, 2.0, 0.5, "軽快でリズミカルな振動"⟩
  | Emotion.fun_ => ⟨"wave", 0.7, 3.0, 0.3, "楽しい波打つような振動"⟩
  | Emotion.anger => ⟨"burst", 0.9, 5.0, 0.2, "強く断続的な振動"⟩
  | Emotion.sad => ⟨"fade", 0.4, 1.0, 1.0, "ゆっくりとした弱い振動"⟩

/-- `emotion_multiplier = 0.2 + (emotion_value / 5) * 0.8`
(vibration_server_wifi.py line 119, identically agent.py line 160). -/
def emotion_multiplier (value : ℕ) : ℚ :=
  0.2 + ((value : ℚ) / 5) * 0.8

/-- The `mixed_emotions` list comprehension: every non-dominant emotion
key whose value is at least 3 (vibration_server_wifi.py lines 122–125). -/
def mixed_emotionsOf (e : EmotionVector) : List Emotion :=
  ((emotionItems e).filter
    (fun p => p.1 != (dominant e).1 && decide (3 ≤ p.2))).map Prod.fst

/-- The pattern name: the base pattern's name, suffixed `_mixed` when the
mixed-emotion list is non-empty (vibration_server_wifi.py lines 128–133). -/
def pattern_typeOf (e : EmotionVector) : String :=
  if mixed_emotionsOf e ≠ [] then
    (vibration_patterns (dominant e).1).pattern ++ "_mixed"
  else
    (vibration_patterns (dominant e).1).pattern

/-- `intensity_adjustment`: 1.1 when mixed emotions are present, else 1.0
(vibration_server_wifi.py lines 130 and 134). -/
def intensity_adjustmentOf (e : EmotionVector) : ℚ :=
  if mixed_emotionsOf e ≠ [] then 1.1 else 1.0

/-- `frequency_adjustment`: 1.2 when mixed emotions are present, else 1.0
(vibration_server_wifi.py lines 131 and 135). -/
def frequency_adjustmentOf (e : EmotionVector) : ℚ :=
  if mixed_emotionsOf e ≠ [] then 1.2 else 1.0

/-- The result dict of `generate_vibration_pattern`.  The all-zero branch
of the source omits the `dominant_emotion`, `mixed_emotions` and
`emotion_level` keys, embedded here as `none` / `[]` / `none`. -/
structure VibResult where
  vibration_enabled : Bool
  pattern : String
  intensity : ℚ
  frequency : ℚ
  duration : ℚ
  description : String
  dominant_emotion : Option Emotion
  mixed_emotions : List Emotion
  emotion_level : Option ℕ
deriving DecidableEq, Repr

/-- `generate_vibration_pattern` of src/mcp_servers/vibration_server_wifi.py
(lines 56–153): find the dominant emotion, return the disabled result if
its value is 0, otherwise scale the base pattern by the emotion
multiplier and the mixed-emotion adjustments, clamping the intensity
at 1.0. -/
def generate_vibration_pattern (joy fun_ anger sad : ℕ) : VibResult :=
  let emotions : EmotionVector := ⟨joy, fun_, anger, sad⟩
  let d := dominant emotions
  if d.2 = 0 then
    { vibration_enabled := false
      pattern := "none"
      intensity := 0
      frequency := 0
      duration := 0
      description := "振動なし"
      dominant_emotion := none
      mixed_emotions := []
      emotion_level := none }
  else
    let base_pattern := vibration_patterns d.1
    { vibration_enabled := true
      pattern := pattern_typeOf emotions
      intensity :=
        min (base_pattern.intensity_base * emotion_multiplier d.2 *
             intensity_adjustmentOf emotions) 1.0
      frequency :=
        base_pattern.frequency_base * emotion_multiplier d.2 *
          frequency_adjustmentOf emotions
      duration := base_pattern.duration_base * emotion_multiplier d.2
      description := base_pattern.description
      dominant_emotion := some d.1
      mixed_emotions := mixed_emotionsOf emotions
      emotion_level := some d.2 }

/-- A single step of a vibration pattern
(src/src/devices/vibration_patterns.py, `VibrationStep`): an intensity in
[0,1] and a duration in milliseconds. -/
structure VibrationStep where
  intensity : ℚ
  duration : ℕ
deriving DecidableEq, Repr

/-- A complete vibration pattern
(src/src/devices/vibration_patterns.py, `VibrationPattern`). -/
structure VibrationPattern where
  steps : List VibrationStep
  interval : ℕ
  repeat_count : ℕ
deriving DecidableEq, Repr

/-- The `EmotionType` enum of vibration_patterns.py. -/
inductive EmotionType where
  | JOY
  | ANGER
  | SORROW
  | PLEASURE
  | NEUTRAL
deriving DecidableEq, Repr

/-- `EmotionVibrationPatterns.joy` (vibration_patterns.py lines 52–65). -/
def EmotionVibrationPatterns.joy : VibrationPattern :=
  ⟨[⟨0.6, 100⟩, ⟨0.0, 50⟩, ⟨0.8, 150⟩, ⟨0.0, 50⟩, ⟨0.6, 100⟩], 50, 2⟩

/-- `EmotionVibrationPatterns.anger` (vibration_patterns.py lines 67–80). -/
def EmotionVibrationPatterns.anger : VibrationPattern :=
  ⟨[⟨0.9, 200⟩, ⟨0.0, 30⟩, ⟨1.0, 150⟩, ⟨0.0, 30⟩, ⟨0.8, 200⟩], 20, 3⟩

/-- `EmotionVibrationPatterns.sorrow` (vibration_patterns.py lines 82–93). -/
def EmotionVibrationPatterns.sorrow : VibrationPattern :=
  ⟨[⟨0.8, 500⟩, ⟨0.6, 300⟩, ⟨0.4, 200⟩], 100, 2⟩

/-- `EmotionVibrationPatterns.pleasure` (vibration_patterns.py lines 95–107). -/
def EmotionVibrationPatterns.pleasure : VibrationPattern :=
  ⟨[⟨0.6, 300⟩, ⟨0.8, 400⟩, ⟨0.7, 300⟩, ⟨0.5, 200⟩], 50, 1⟩

/-- `EmotionVibrationPatterns.neutral` (vibration_patterns.py lines 109–118). -/
def EmotionVibrationPatterns.neutral : VibrationPattern :=
  ⟨[⟨0.5, 200⟩], 0, 1⟩

/-- `EmotionVibrationPatterns.get_pattern` (vibration_patterns.py
lines 120–130). -/
def EmotionVibrationPatterns.get_pattern : EmotionType → VibrationPattern
  | EmotionType.JOY => EmotionVibrationPatterns.joy
  | EmotionType.ANGER => EmotionVibrationPatterns.anger
  | EmotionType.SORROW => EmotionVibrationPatterns.sorrow
  | EmotionType.PLEASURE => EmotionVibrationPatterns.pleasure
  | EmotionType.NEUTRAL => EmotionVibrationPatterns.neutral

/-- The `emotion_map` dict of `from_emotion_values` (vibration_patterns.py
lines 166–171): joy→JOY, fun→PLEASURE, anger→ANGER, sad→SORROW. -/
def emotion_map : Emotion → EmotionType
  | Emotion.joy => EmotionType.JOY
  | Emotion.fun_ => EmotionType.PLEASURE
  | Emotion.anger => EmotionType.ANGER
  | Emotion.sad => EmotionType.SORROW

/-- `VibrationPatternGenerator.from_emotion_values` (vibration_patterns.py
lines 136–198): dominant-emotion selection over the same four-key dict,
the empty pattern when the dominant value is 0, otherwise the per-emotion
base pattern with every step intensity scaled by
`0.2 + (value/5)*0.8` and clamped at 1.0, and the repeat count scaled by
`1 + (value - 1) // 2`. -/
def VibrationPatternGenerator.from_emotion_values
    (joy fun_ anger sad : ℕ) : VibrationPattern :=
  let e : EmotionVector := ⟨joy, fun_, anger, sad⟩
  let d := dominant e
  if d.2 = 0 then
    ⟨[], 0, 0⟩
  else
    let base_pattern := EmotionVibrationPatterns.get_pattern (emotion_map d.1)
    let intensity_scale : ℚ := 0.2 + ((d.2 : ℚ) / 5) * 0.8
    let adjusted_steps := base_pattern.steps.map
      (fun step => ⟨min (step.intensity * intensity_scale) 1.0, step.duration⟩)
    let repeat_scale := 1 + (d.2 - 1) / 2
    ⟨adjusted_steps, base_pattern.interval, base_pattern.repeat_count * repeat_scale⟩

/-- `VibrationPatternGenerator.create_custom_pattern` (vibration_patterns.py
lines 200–273): clamp the intensity to [0,1], then build the per-type step
template; `burst` triples the repeat count and uses fixed 100 ms / 50 ms
steps, and an unknown type falls back to a single flat step. -/
def VibrationPatternGenerator.create_custom_pattern
    (pattern_type : String) (intensity : ℚ) (duration_ms : ℕ)
    (repeat_count : ℕ) : VibrationPattern :=
  let intensity := max 0.0 (min 1.0 intensity)
  if pattern_type = "pulse" then
    ⟨[⟨intensity, duration_ms / 2⟩, ⟨0.0, duration_ms / 2⟩], 50, repeat_count⟩
  else if pattern_type = "wave" then
    ⟨[⟨intensity * 0.3, duration_ms / 3⟩, ⟨intensity * 0.7, duration_ms / 3⟩,
      ⟨intensity, duration_ms / 3⟩], 50, repeat_count⟩
  else if pattern_type = "burst" then
    ⟨[⟨intensity, 100⟩, ⟨0.0, 50⟩], 30, repeat_count * 3⟩
  else if pattern_type = "fade" then
    ⟨[⟨intensity, duration_ms / 2⟩, ⟨intensity * 0.5, duration_ms / 4⟩,
      ⟨intensity * 0.2, duration_ms / 4⟩], 50, repeat_count⟩
  else
    ⟨[⟨intensity, duration_ms⟩], 0, repeat_count⟩

/-- The part of a device's parsed JSON reply body that the controllers
inspect: the value of its `status` field, when present. -/
structure DeviceBody where
  status : Option String
deriving DecidableEq, Repr

/-- The device side of one HTTP request, made explicit: either the
request raises a transport exception, or an HTTP reply arrives with a
status code and a parsed JSON body (`none` when `response.json()` would
raise). -/
inductive DeviceAnswer where
  | netError
  | reply (httpStatus : ℕ) (body : Option DeviceBody)
deriving DecidableEq, Repr

/-- The status string a 200 reply reports, when any: `none` for transport
errors, non-200 replies, unparsable bodies and bodies without a `status`
field. -/
def reportedStatus : DeviceAnswer → Option String
  | DeviceAnswer.netError => none
  | DeviceAnswer.reply s b =>
    if s = 200 then
      match b with
      | some body => body.status
      | none => none
    else none

/-- `ArduinoController.get_status` (arduino_controller.py lines 135–152):
the parsed body on HTTP 200, `None` on a non-200 reply or any exception
(including a body on which `response.json()` raises, caught by the
enclosing `except`). -/
def ArduinoController.get_status : DeviceAnswer → Option DeviceBody
  | DeviceAnswer.netError => none
  | DeviceAnswer.reply s b => if s = 200 then b else none

/-- `ArduinoController.connect` (arduino_controller.py lines 35–52),
given the device's answer to the status probe: the returned boolean
paired with the resulting `is_connected` flag (initially false).  The
controller connects only when `get_status` yields a body whose `status`
field is `"ready"`; every other outcome returns `False` with
`is_connected` still false. -/
def ArduinoController.connect (ans : DeviceAnswer) : Bool × Bool :=
  match ArduinoController.get_status ans with
  | some body =>
    if body.status = some "ready" then (true, true) else (false, false)
  | none => (false, false)

/-- `VibrationSensorControllerWiFi.connect`
(vibration_sensor_controller_wifi.py lines 65–92), given the device's
answer to the `GET /status` probe: the Python return value (`none`
standing for the implicit `return None` of the fall-through path) paired
with the resulting `is_connected` flag.  On HTTP 200 with body status
`"online"` it returns True and connects; on HTTP 200 with any other body
status it falls through the `if` and returns None; on a non-200 reply it
returns False; on any exception (including a raising `response.json()`)
the `except` clause returns False. -/
def VibrationSensorControllerWiFi.connect
    (ans : DeviceAnswer) : Option Bool × Bool :=
  match ans with
  | DeviceAnswer.netError => (some false, false)
  | DeviceAnswer.reply s b =>
    if s = 200 then
      match b with
      | some body =>
        if body.status = some "online" then (some true, true)
        else (none, false)
      | none => (some false, false)
    else (some false, false)

/-- `ArduinoController.send_pattern` (arduino_controller.py lines 67–108),
given the `is_connected` state, the pattern argument and the device's
answer to the `POST /pattern` request: returns True only when connected
and the reply is HTTP 200 with body status `"ok"`; a disconnected
controller, a transport exception, a non-200 status or any other body
all yield False. -/
def ArduinoController.send_pattern
    (is_connected : Bool) (pattern : VibrationPattern)
    (ans : DeviceAnswer) : Bool :=
  if !is_connected then false
  else
    match ans with
    | DeviceAnswer.netError => false
    | DeviceAnswer.reply s b =>
      if s = 200 then
        match b with
        | some body => if body.status = some "ok" then true else false
        | none => false
      else false

/-- The outcome of one attempt inside `BaseController._retry_request`:
a timeout, some other exception, or a reply with an HTTP status code. -/
inductive AttemptOutcome where
  | timeout
  | exc (msg : String)
  | resp (status : ℕ)
deriving DecidableEq, Repr

/-- An attempt outcome is transient — and hence retried by
`_retry_request` — when it is a timeout, an exception, or a reply with a
5xx status (`response.status < 500` is returned immediately). -/
def isTransient : AttemptOutcome → Bool
  | AttemptOutcome.timeout => true
  | AttemptOutcome.exc _ => true
  | AttemptOutcome.resp s => decide (500 ≤ s)

/-- What one call of `_retry_request` did: the value returned (the status
of the reply handed back, or `none` for the `return None` after
exhaustion), the backoff waits performed in order, and how many attempts
were made. -/
structure RetryTrace where
  result : Option ℕ
  waits : List ℕ
  attempts : ℕ
deriving DecidableEq, Repr

/-- The `for attempt in range(retry_count)` loop of
`BaseController._retry_request` (base_controller.py lines 69–94), from
attempt number `attempt` with `remaining` loop iterations left.  A reply
with status < 500 is returned at once; every other outcome falls to the
end of the loop body, which sleeps `2 ** attempt` seconds unless this was
the last iteration (`attempt < retry_count - 1`), and after the last
iteration the function returns `None`. -/
def retryLoopAux (outcomes : ℕ → AttemptOutcome) :
    ℕ → ℕ → RetryTrace
  | _, 0 => ⟨none, [], 0⟩
  | attempt, remaining + 1 =>
    let cont : RetryTrace :=
      if remaining = 0 then ⟨none, [], 1⟩
      else
        let r := retryLoopAux outcomes (attempt + 1) remaining
        ⟨r.result, 2 ^ attempt :: r.waits, r.attempts + 1⟩
    match outcomes attempt with
    | AttemptOutcome.resp s => if s < 500 then ⟨some s, [], 1⟩ else cont
    | _ => cont

/-- `BaseController._retry_request` (base_controller.py lines 69–94),
with the outcome of each attempt made explicit as a function of the
attempt number. -/
def retry_request (retry_count : ℕ) (outcomes : ℕ → AttemptOutcome) :
    RetryTrace :=
  retryLoopAux outcomes 0 retry_count

/-- The Python string key of each emotion channel, as it appears in the
`emotions` dict and hence in `vibration_server.py`'s result fields. -/
def Emotion.pyName : Emotion → String
  | Emotion.joy => "joy"
  | Emotion.fun_ => "fun"
  | Emotion.anger => "anger"
  | Emotion.sad => "sad"

/-- The `pattern_descriptions` dict of
src/mcp_servers/vibration_server.py (lines 90–95). -/
def pattern_descriptions : Emotion → String
  | Emotion.joy => "軽快でリズミカルな振動"
  | Emotion.fun_ => "楽しい波打つような振動"
  | Emotion.anger => "強く断続的な振動"
  | Emotion.sad => "ゆっくりとした弱い振動"

/-- The result dict of `generate_vibration_pattern` in
src/mcp_servers/vibration_server.py.  The disabled branch omits the
`dominant_emotion`, `mixed_emotions` and `emotion_level` keys and sets
`vibration_pattern` to `None`, embedded as `none` / `[]` / `none` /
`none`. -/
structure ServerVibResult where
  vibration_enabled : Bool
  pattern : String
  intensity : ℚ
  frequency : ℚ
  duration : ℚ
  description : String
  dominant_emotion : Option Emotion
  mixed_emotions : List Emotion
  emotion_level : Option ℕ
  vibration_pattern : Option VibrationPattern
deriving DecidableEq, Repr

/-- `generate_vibration_pattern` of src/mcp_servers/vibration_server.py
(lines 54–119): build the pattern with
`VibrationPatternGenerator.from_emotion_values`, select the dominant
emotion from the same four-key dict, return the disabled result when the
dominant value is 0 or the pattern has no steps, and otherwise report —
unlike the wifi variant — the dominant emotion's *name* as the `pattern`
field, the average step intensity, the repeat count as frequency, and
the summed step durations (plus inter-step intervals) in seconds. -/
def VibrationServer.generate_vibration_pattern
    (joy fun_ anger sad : ℕ) : ServerVibResult :=
  let pattern := VibrationPatternGenerator.from_emotion_values joy fun_ anger sad
  let emotions : EmotionVector := ⟨joy, fun_, anger, sad⟩
  let d := dominant emotions
  if d.2 = 0 ∨ pattern.steps = [] then
    ⟨false, "none", 0, 0, 0, "振動なし", none, [], none, none⟩
  else
    let avg_intensity : ℚ :=
      (pattern.steps.map VibrationStep.intensity).sum / pattern.steps.length
    let total_duration : ℚ :=
      ((pattern.steps.map VibrationStep.duration).sum : ℚ)
        + (pattern.interval : ℚ) * ((pattern.steps.length : ℚ) - 1)
    ⟨true, Emotion.pyName d.1, avg_intensity, (pattern.repeat_count : ℚ),
     total_duration / 1000, pattern_descriptions d.1, some d.1,
     mixed_emotionsOf emotions, some d.2, some pattern⟩

/-- Python's first-element-initialised `max` scan: the result is one of
the scanned pairs, its value bounds every scanned value, and it is the
first pair attaining that value — `find?` on the maximal value returns
exactly it. -/
theorem pyMax_mem_and_max (init : Emotion × ℕ) (l : List (Emotion × ℕ)) :
    pyMax init l ∈ init :: l ∧
    (∀ p ∈ init :: l, p.2 ≤ (pyMax init l).2) ∧
    (init :: l).find? (fun p => p.2 == (pyMax init l).2)
      = some (pyMax init l) := by
  induction l generalizing init with
  | nil =>
    refine ⟨List.mem_cons_self _ _, ?_, ?_⟩
    · intro p hp
      rcases List.mem_cons.mp hp with h | h
      · exact h ▸ le_refl _
      · exact absurd h (List.not_mem_nil p)
    · simp [pyMax]
  | cons x xs ih =>
    by_cases hx : init.2 < x.2
    · have e1 : pyMax init (x :: xs) = pyMax x xs := by
        simp [pyMax, hx]
      obtain ⟨m1, m2, m3⟩ := ih x
      have hxle : x.2 ≤ (pyMax x xs).2 := m2 x (List.mem_cons_self _ _)
      refine ⟨?_, ?_, ?_⟩
      · rw [e1]
        exact List.mem_cons_of_mem init m1
      · intro p hp
        rw [e1]
        rcases List.mem_cons.mp hp with h | h
        · exact h ▸ le_trans (le_of_lt hx) hxle
        · exact m2 p h
      · rw [e1]
        have hnegi : (init.2 == (pyMax x xs).2) = false := by
          simp only [beq_eq_false_iff_ne, ne_eq]
          exact Nat.ne_of_lt (lt_of_lt_of_le hx hxle)
        simp only [List.find?_cons, hnegi]
        exact m3
    · have e1 : pyMax init (x :: xs) = pyMax init xs := by
        simp [pyMax, hx]
      obtain ⟨m1, m2, m3⟩ := ih init
      have hinitle : init.2 ≤ (pyMax init xs).2 :=
        m2 init (List.mem_cons_self _ _)
      have hxinit : x.2 ≤ init.2 := Nat.le_of_not_lt hx
      refine ⟨?_, ?_, ?_⟩
      · rw [e1]
        rcases List.mem_cons.mp m1 with h | h
        · rw [h]
          exact List.mem_cons_self _ _
        · exact List.mem_cons_of_mem init (List.mem_cons_of_mem x h)
      · intro p hp
        rw [e1]
        rcases List.mem_cons.mp hp with h | h
        · exact h ▸ hinitle
        · rcases List.mem_cons.mp h with h2 | h2
          · exact h2 ▸ le_trans hxinit hinitle
          · exact m2 p (List.mem_cons_of_mem init h2)
      · rw [e1]
        by_cases hi : init.2 = (pyMax init xs).2
        · have hposi : (init.2 == (pyMax init xs).2) = true := by
            simp [hi]
          simp only [List.find?_cons, hposi] at m3 ⊢
          exact m3
        · have hlt : init.2 < (pyMax init xs).2 :=
            lt_of_le_of_ne hinitle hi
          have hnegi : (init.2 == (pyMax init xs).2) = false := by
            simp [hi]
          have hnegx : (x.2 == (pyMax init xs).2) = false := by
            simp only [beq_eq_false_iff_ne, ne_eq]
            exact Nat.ne_of_lt (lt_of_le_of_lt hxinit hlt)
          simp only [List.find?_cons, hnegi, hnegx] at m3 ⊢
          exact m3

/-- C5: the dominant emotion selected by pattern generation is one of the
four (key, value) entries, its value is the maximum of the four, and it
is the first entry in the fixed iteration order joy, fun, anger, sad that
attains the maximum (first-seen-max wins); being a function of the
vector, the selection is deterministic. -/
theorem dominant_first_seen_max (j f a s : ℕ) :
    dominant ⟨j, f, a, s⟩ ∈ emotionItems ⟨j, f, a, s⟩ ∧
    (∀ p ∈ emotionItems ⟨j, f, a, s⟩, p.2 ≤ (dominant ⟨j, f, a, s⟩).2) ∧
    (emotionItems ⟨j, f, a, s⟩).find?
        (fun p => p.2 == (dominant ⟨j, f, a, s⟩).2)
      = some (dominant ⟨j, f, a, s⟩) :=
  pyMax_mem_and_max (Emotion.joy, j)
    [(Emotion.fun_, f), (Emotion.anger, a), (Emotion.sad, s)]

/-- C5 witness: the max-bound clause applied at the all-equal vector,
on which the tie-break selects joy. -/
theorem dominant_first_seen_max_witness :
    (Emotion.anger, 2) ∈ emotionItems ⟨2, 2, 2, 2⟩ ∧
    2 ≤ (dominant ⟨2, 2, 2, 2⟩).2 ∧
    dominant ⟨2, 2, 2, 2⟩ = (Emotion.joy, 2) :=
  ⟨by simp [emotionItems],
   (dominant_first_seen_max 2 2 2 2).2.1 (Emotion.anger, 2)
     (by simp [emotionItems]),
   by decide⟩

/-- One loop iteration on a transient outcome (timeout, exception, 5xx):
fall through to the backoff-and-continue tail of the loop body. -/
theorem retryLoopAux_succ_transient (o : ℕ → AttemptOutcome) (a n : ℕ)
    (h : isTransient (o a) = true) :
    retryLoopAux o a (n + 1) =
      if n = 0 then ⟨none, [], 1⟩
      else ⟨(retryLoopAux o (a + 1) n).result,
            2 ^ a :: (retryLoopAux o (a + 1) n).waits,
            (retryLoopAux o (a + 1) n).attempts + 1⟩ := by
  rcases ho : o a with _ | msg | s
  · rw [retryLoopAux, ho]
  · rw [retryLoopAux, ho]
  · have hs : ¬ s < 500 := by
      rw [ho] at h
      simp only [isTransient, decide_eq_true_eq] at h
      omega
    rw [retryLoopAux, ho]
    simp only [if_neg hs]

/-- One loop iteration on a sub-500 reply: return it immediately. -/
theorem retryLoopAux_succ_resp (o : ℕ → AttemptOutcome) (a n s : ℕ)
    (ho : o a = AttemptOutcome.resp s) (hs : s < 500) :
    retryLoopAux o a (n + 1) = ⟨some s, [], 1⟩ := by
  rw [retryLoopAux, ho]
  simp only [if_pos hs]

/-- The loop makes at most `remaining` attempts. -/
theorem retryLoopAux_attempts_le (o : ℕ → AttemptOutcome) :
    ∀ r a, (retryLoopAux o a r).attempts ≤ r := by
  intro r
  induction r with
  | zero => intro a; simp [retryLoopAux]
  | succ n ih =>
    intro a
    cases htr : isTransient (o a) with
    | true =>
      rw [retryLoopAux_succ_transient o a n htr]
      split_ifs with hn
      · simp
      · have := ih (a + 1)
        simp only []
        omega
    | false =>
      rcases ho : o a with _ | msg | s
      · rw [ho] at htr
        exact absurd htr (by simp [isTransient])
      · rw [ho] at htr
        exact absurd htr (by simp [isTransient])
      · have hs : s < 500 := by
          rw [ho] at htr
          simp only [isTransient, decide_eq_false_iff_not] at htr
          omega
        rw [retryLoopAux_succ_resp o a n s ho hs]
        simp

/-- When every attempted outcome is transient, the loop expends all its
iterations, backing off `2 ^ attempt` seconds after each attempt but the
last, and returns `none`. -/
theorem retryLoopAux_all_transient (o : ℕ → AttemptOutcome) :
    ∀ r a, (∀ i, i < r → isTransient (o (a + i)) = true) →
      retryLoopAux o a r
        = ⟨none, (List.range' a (r - 1)).map (fun i => 2 ^ i), r⟩ := by
  intro r
  induction r with
  | zero => intro a _; simp [retryLoopAux]
  | succ n ih =>
    intro a h
    have h0 : isTransient (o a) = true := by
      simpa using h 0 (Nat.succ_pos n)
    rw [retryLoopAux_succ_transient o a n h0]
    by_cases hn : n = 0
    · subst hn
      simp
    · rw [if_neg hn]
      have hrec := ih (a + 1) (fun i hi => by
        have hh := h (i + 1) (by omega)
        have e : a + (i + 1) = a + 1 + i := by omega
        rwa [e] at hh)
      rw [hrec]
      obtain ⟨m, rfl⟩ := Nat.exists_eq_succ_of_ne_zero hn
      simp [List.range'_succ]

/-- When the first non-transient outcome arrives at attempt `k` inside
the loop bound, it is a sub-500 reply returned at once, after exactly
`k + 1` attempts and the backoff waits of the `k` failed attempts. -/
theorem retryLoopAux_first_success (o : ℕ → AttemptOutcome) :
    ∀ k a r, k < r →
      (∀ i, i < k → isTransient (o (a + i)) = true) →
      isTransient (o (a + k)) = false →
      ∃ s, o (a + k) = AttemptOutcome.resp s ∧ s < 500 ∧
        retryLoopAux o a r
          = ⟨some s, (List.range' a k).map (fun i => 2 ^ i), k + 1⟩ := by
  intro k
  induction k with
  | zero =>
    intro a r hr _ hnt
    obtain ⟨m, rfl⟩ : ∃ m, r = m + 1 := ⟨r - 1, by omega⟩
    rw [Nat.add_zero] at hnt
    rcases ho : o a with _ | msg | s
    · rw [ho] at hnt
      exact absurd hnt (by simp [isTransient])
    · rw [ho] at hnt
      exact absurd hnt (by simp [isTransient])
    · have hs : s < 500 := by
        rw [ho] at hnt
        simp only [isTransient, decide_eq_false_iff_not] at hnt
        omega
      refine ⟨s, by simpa using ho, hs, ?_⟩
      rw [retryLoopAux_succ_resp o a m s ho hs]
      simp
  | succ k ih =>
    intro a r hr htr hnt
    obtain ⟨m, rfl⟩ : ∃ m, r = m + 1 := ⟨r - 1, by omega⟩
    have h0 : isTransient (o a) = true := by
      simpa using htr 0 (by omega)
    have hm : k < m := by omega
    have htr' : ∀ i, i < k → isTransient (o (a + 1 + i)) = true := by
      intro i hi
      have hh := htr (i + 1) (by omega)
      have e : a + (i + 1) = a + 1 + i := by omega
      rwa [e] at hh
    have hnt' : isTransient (o (a + 1 + k)) = false := by
      have e : a + (k + 1) = a + 1 + k := by omega
      rwa [e] at hnt
    obtain ⟨s, hos, hs, heq⟩ := ih (a + 1) m hm htr' hnt'
    have e : a + (k + 1) = a + 1 + k := by omega
    refine ⟨s, by rwa [e], hs, ?_⟩
    rw [retryLoopAux_succ_transient o a m h0, if_neg (by omega : ¬ m = 0),
      heq]
    simp [List.range'_succ]

/-- C9: `_retry_request` makes at most `retry_count` attempts; only
transient failures — timeouts, exceptions and 5xx replies — are retried,
with a `2 ^ attempt`-second wait between attempts; any reply with status
below 500 (in particular every 4xx) is returned immediately without
retry; and after exhausting all attempts the call returns the `none`
failure signal.  Being a total function, it never raises past the
transport boundary. -/
theorem retry_request_spec (rc : ℕ) (o : ℕ → AttemptOutcome) :
    (retry_request rc o).attempts ≤ rc ∧
    ((∀ i, i < rc → isTransient (o i) = true) →
       retry_request rc o
         = ⟨none, (List.range' 0 (rc - 1)).map (fun i => 2 ^ i), rc⟩) ∧
    (∀ k, k < rc → (∀ i, i < k → isTransient (o i) = true) →
       isTransient (o k) = false →
       ∃ s, o k = AttemptOutcome.resp s ∧ s < 500 ∧
         retry_request rc o
           = ⟨some s, (List.range' 0 k).map (fun i => 2 ^ i), k + 1⟩) := by
  refine ⟨retryLoopAux_attempts_le o rc 0, ?_, ?_⟩
  · intro h
    exact retryLoopAux_all_transient o rc 0 (fun i hi => by
      simpa using h i hi)
  · intro k hk htr hnt
    have hres := retryLoopAux_first_success o k 0 rc hk
      (fun i hi => by simpa using htr i hi) (by simpa using hnt)
    simpa using hres

/-- C9 witness: the first-success clause applied to a concrete schedule:
a timeout, then a 503, then a 200 — returned after three attempts with
backoff waits of 1 and 2 seconds. -/
theorem retry_request_spec_witness :
    retry_request 3
        (fun n => if n = 0 then AttemptOutcome.timeout
          else if n = 1 then AttemptOutcome.resp 503
          else AttemptOutcome.resp 200)
      = ⟨some 200, [1, 2], 3⟩ := by
  obtain ⟨s, hs, hlt, heq⟩ :=
    (retry_request_spec 3
        (fun n => if n = 0 then AttemptOutcome.timeout
          else if n = 1 then AttemptOutcome.resp 503
          else AttemptOutcome.resp 200)).2.2
      2 (by decide) (by decide) (by decide)
  have hs200 : s = 200 := by
    simpa using hs.symm
  subst hs200
  simpa using heq

/-- C1 counterexample: the emotion multiplier at value 1 is 0.36, not the
0.2 the spec's boundary check asserts. -/
theorem emotion_multiplier_one_is_not_two_tenths :
    emotion_multiplier 1 = 0.36 ∧ emotion_multiplier 1 ≠ 0.2 := by
  constructor <;> norm_num [emotion_multiplier]

/-- C1 (amended): `emotion_multiplier value = 0.2 + (value/5)*0.8` is a
monotone linear map with `emotion_multiplier 0 = 0.2` and
`emotion_multiplier 5 = 1.0` exactly; on values 0–5 it stays inside
[0.2, 1.0], but at value 1 it equals 0.36, not 0.2. -/
theorem emotion_multiplier_linear_map :
    (∀ v w : ℕ, v ≤ w → emotion_multiplier v ≤ emotion_multiplier w) ∧
    emotion_multiplier 0 = 0.2 ∧
    emotion_multiplier 5 = 1.0 ∧
    emotion_multiplier 1 = 0.36 ∧
    (∀ v : ℕ, v ≤ 5 →
      0.2 ≤ emotion_multiplier v ∧ emotion_multiplier v ≤ 1.0) := by
  refine ⟨?_, by norm_num [emotion_multiplier],
    by norm_num [emotion_multiplier], by norm_num [emotion_multiplier], ?_⟩
  · intro v w h
    have hvw : (v : ℚ) ≤ (w : ℚ) := by exact_mod_cast h
    unfold emotion_multiplier
    nlinarith
  · intro v hv
    have h0 : (0 : ℚ) ≤ (v : ℚ) := by positivity
    have h5 : (v : ℚ) ≤ 5 := by exact_mod_cast hv
    unfold emotion_multiplier
    constructor <;> nlinarith

/-- C1 witness: the amended statement applied at concrete values. -/
theorem emotion_multiplier_linear_map_witness :
    emotion_multiplier 2 ≤ emotion_multiplier 4 ∧
    (0.2 ≤ emotion_multiplier 3 ∧ emotion_multiplier 3 ≤ 1.0) :=
  ⟨emotion_multiplier_linear_map.1 2 4 (by norm_num),
   emotion_multiplier_linear_map.2.2.2.2 3 (by norm_num)⟩

/-- C2: on the all-zero emotion vector, the emotion-vector entry point
reports vibration disabled, and `from_emotion_values` returns the
pattern with empty steps and repeat count 0. -/
theorem all_zero_emotions_noop :
    (generate_vibration_pattern 0 0 0 0).vibration_enabled = false ∧
    (VibrationPatternGenerator.from_emotion_values 0 0 0 0).steps = [] ∧
    (VibrationPatternGenerator.from_emotion_values 0 0 0 0).repeat_count = 0 :=
  ⟨rfl, rfl, rfl⟩

/-- C7 counterexample: against a device answering the status probe with
HTTP 200 and a body whose status is `"offline"`,
`VibrationSensorControllerWiFi.connect` returns `None` (the fall-through
path), not the `False` the claim states — though it indeed does not
connect. -/
theorem wifi_connect_not_online_returns_none :
    (VibrationSensorControllerWiFi.connect
        (DeviceAnswer.reply 200 (some ⟨some "offline"⟩))).1 = none ∧
    (VibrationSensorControllerWiFi.connect
        (DeviceAnswer.reply 200 (some ⟨some "offline"⟩))).1 ≠ some false ∧
    (VibrationSensorControllerWiFi.connect
        (DeviceAnswer.reply 200 (some ⟨some "offline"⟩))).2 = false := by
  refine ⟨rfl, by decide, rfl⟩

/-- C7 (amended): both connect implementations fail closed.  Whenever the
status probe does not report the ready value, `ArduinoController.connect`
returns `False` and stays disconnected; whenever it does not report the
online value, `VibrationSensorControllerWiFi.connect` returns a falsy
value — `None` on the 200-but-not-online path, `False` otherwise — and
stays disconnected.  Both functions are total, so no exception reaches
the caller. -/
theorem connect_fails_closed (ans : DeviceAnswer) :
    (reportedStatus ans ≠ some "ready" →
       ArduinoController.connect ans = (false, false)) ∧
    (reportedStatus ans ≠ some "online" →
       (VibrationSensorControllerWiFi.connect ans).1 ≠ some true ∧
       (VibrationSensorControllerWiFi.connect ans).2 = false) := by
  constructor
  · intro h
    cases ans with
    | netError => rfl
    | reply s b =>
      unfold ArduinoController.connect ArduinoController.get_status
      by_cases hs : s = 200
      · subst hs
        cases b with
        | none => simp
        | some body =>
          have hb : body.status ≠ some "ready" := by
            simpa [reportedStatus] using h
          simp [hb]
      · simp [hs]
  · intro h
    cases ans with
    | netError => exact ⟨by simp [VibrationSensorControllerWiFi.connect], rfl⟩
    | reply s b =>
      unfold VibrationSensorControllerWiFi.connect
      by_cases hs : s = 200
      · subst hs
        cases b with
        | none => simp
        | some body =>
          have hb : body.status ≠ some "online" := by
            simpa [reportedStatus] using h
          simp [hb]
      · simp [hs]

/-- C7 witness: the amended statement applied to a 503 reply. -/
theorem connect_fails_closed_witness :
    ArduinoController.connect (DeviceAnswer.reply 503 none) = (false, false) ∧
    (VibrationSensorControllerWiFi.connect (DeviceAnswer.reply 503 none)).2
      = false :=
  ⟨(connect_fails_closed (DeviceAnswer.reply 503 none)).1 (by decide),
   ((connect_fails_closed (DeviceAnswer.reply 503 none)).2 (by decide)).2⟩

/-- C8: for every pattern argument, `send_pattern` on a disconnected
controller returns False without raising, and on a connected controller
it returns False on a transport exception, a non-200 HTTP status, or a
reply body whose status field is not the acceptance value `"ok"`. -/
theorem send_pattern_fails_closed
    (p : VibrationPattern) (ans : DeviceAnswer) :
    ArduinoController.send_pattern false p ans = false ∧
    (reportedStatus ans ≠ some "ok" →
       ArduinoController.send_pattern true p ans = false) := by
  constructor
  · rfl
  · intro h
    cases ans with
    | netError => rfl
    | reply s b =>
      unfold ArduinoController.send_pattern
      by_cases hs : s = 200
      · subst hs
        cases b with
        | none => simp
        | some body =>
          have hb : body.status ≠ some "ok" := by
            simpa [reportedStatus] using h
          simp [hb]
      · simp [hs]

/-- C8 witness: the statement applied to a transport error on a
connected controller. -/
theorem send_pattern_fails_closed_witness :
    ArduinoController.send_pattern true ⟨[], 0, 1⟩ DeviceAnswer.netError
      = false :=
  (send_pattern_fails_closed ⟨[], 0, 1⟩ DeviceAnswer.netError).2 (by decide)

/-- Every base intensity of the emotion table is non-negative. -/
theorem intensity_base_nonneg (e : Emotion) :
    0 ≤ (vibration_patterns e).intensity_base := by
  cases e <;> norm_num [vibration_patterns]

/-- The emotion multiplier is non-negative on every natural value. -/
theorem emotion_multiplier_nonneg (v : ℕ) : 0 ≤ emotion_multiplier v := by
  unfold emotion_multiplier
  positivity

/-- The intensity adjustment factor (1.0 or 1.1) is non-negative. -/
theorem intensity_adjustment_nonneg (e : EmotionVector) :
    0 ≤ intensity_adjustmentOf e := by
  rw [intensity_adjustmentOf]
  split_ifs <;> norm_num

/-- Every step intensity of the five preset patterns lies in [0, 1]. -/
theorem base_steps_intensity_bounds (t : EmotionType) :
    ∀ st ∈ (EmotionVibrationPatterns.get_pattern t).steps,
      0 ≤ st.intensity ∧ st.intensity ≤ 1 := by
  cases t <;>
    simp only [EmotionVibrationPatterns.get_pattern,
      EmotionVibrationPatterns.joy, EmotionVibrationPatterns.anger,
      EmotionVibrationPatterns.sorrow, EmotionVibrationPatterns.pleasure,
      EmotionVibrationPatterns.neutral, List.forall_mem_cons,
      List.forall_mem_nil, and_true] <;>
    norm_num

/-- C3: for emotion values in 0–5, the final intensity of the generated
result lies in [0, 1]; on a nonzero dominant value it equals
`min (base_intensity * emotion_multiplier * intensity_adjustment) 1.0`,
so even value 5 under the 1.1 mixed adjustment is clamped at 1.0; and
every step intensity emitted by `from_emotion_values` lies in [0, 1] as
well. -/
theorem final_intensity_in_unit_interval (j f a s : ℕ)
    (hj : j ≤ 5) (hf : f ≤ 5) (ha : a ≤ 5) (hs : s ≤ 5) :
    0 ≤ (generate_vibration_pattern j f a s).intensity ∧
    (generate_vibration_pattern j f a s).intensity ≤ 1 ∧
    ((dominant ⟨j, f, a, s⟩).2 ≠ 0 →
      (generate_vibration_pattern j f a s).intensity
        = min ((vibration_patterns (dominant ⟨j, f, a, s⟩).1).intensity_base
            * emotion_multiplier (dominant ⟨j, f, a, s⟩).2
            * intensity_adjustmentOf ⟨j, f, a, s⟩) 1.0) ∧
    (∀ st ∈ (VibrationPatternGenerator.from_emotion_values j f a s).steps,
      0 ≤ st.intensity ∧ st.intensity ≤ 1) := by
  by_cases hd : (dominant ⟨j, f, a, s⟩).2 = 0
  · refine ⟨?_, ?_, fun h => absurd hd h, ?_⟩
    · simp [generate_vibration_pattern, hd]
    · simp [generate_vibration_pattern, hd]
    · intro st hst
      simp [VibrationPatternGenerator.from_emotion_values, hd] at hst
  · have hx : 0 ≤ (vibration_patterns (dominant ⟨j, f, a, s⟩).1).intensity_base
        * emotion_multiplier (dominant ⟨j, f, a, s⟩).2
        * intensity_adjustmentOf ⟨j, f, a, s⟩ :=
      mul_nonneg
        (mul_nonneg (intensity_base_nonneg _) (emotion_multiplier_nonneg _))
        (intensity_adjustment_nonneg _)
    have hgen : (generate_vibration_pattern j f a s).intensity
        = min ((vibration_patterns (dominant ⟨j, f, a, s⟩).1).intensity_base
            * emotion_multiplier (dominant ⟨j, f, a, s⟩).2
            * intensity_adjustmentOf ⟨j, f, a, s⟩) 1.0 := by
      simp [generate_vibration_pattern, hd]
    refine ⟨?_, ?_, fun _ => hgen, ?_⟩
    · rw [hgen]
      exact le_min hx (by norm_num)
    · rw [hgen]
      exact le_trans (min_le_right _ _) (by norm_num)
    · intro st hst
      simp [VibrationPatternGenerator.from_emotion_values, hd,
        List.mem_map] at hst
      obtain ⟨st0, hst0, heq⟩ := hst
      have hscale : (0 : ℚ)
          ≤ 0.2 + (((dominant ⟨j, f, a, s⟩).2 : ℚ) / 5) * 0.8 := by
        positivity
      have hst0b := base_steps_intensity_bounds
        (emotion_map (dominant ⟨j, f, a, s⟩).1) st0 hst0
      rw [← heq]
      constructor
      · exact le_min (mul_nonneg hst0b.1 hscale) (by norm_num)
      · exact le_trans (min_le_right _ _) (by norm_num)

/-- C3 witness: the bound clauses applied at the boundary case value 5
with the mixed adjustment active (joy=5, fun=3). -/
theorem final_intensity_in_unit_interval_witness :
    0 ≤ (generate_vibration_pattern 5 3 0 0).intensity ∧
    (generate_vibration_pattern 5 3 0 0).intensity ≤ 1 :=
  ⟨(final_intensity_in_unit_interval 5 3 0 0 (by decide) (by decide)
      (by decide) (by decide)).1,
   (final_intensity_in_unit_interval 5 3 0 0 (by decide) (by decide)
      (by decide) (by decide)).2.1⟩

/-- On a nonzero dominant value, the pattern field of the generated
result is `pattern_typeOf`, the name computed from the base table and
the mixed-emotion suffix rule. -/
theorem generate_pattern_eq (j f a s : ℕ)
    (h : (dominant ⟨j, f, a, s⟩).2 ≠ 0) :
    (generate_vibration_pattern j f a s).pattern
      = pattern_typeOf ⟨j, f, a, s⟩ := by
  simp [generate_vibration_pattern, h]

/-- C4: the mixed-emotion adjustment activates exactly when some
non-dominant emotion entry has value at least 3; when it activates the
pattern name gets the `_mixed` suffix and the adjustment factors are 1.1
(intensity) and 1.2 (frequency); otherwise the name is unsuffixed and
both factors are 1.0.  In particular joy=5, fun=3 yields `pulse_mixed`
and joy=5, fun=2 yields `pulse`. -/
theorem mixed_adjustment_iff (j f a s : ℕ)
    (h : (dominant ⟨j, f, a, s⟩).2 ≠ 0) :
    (mixed_emotionsOf ⟨j, f, a, s⟩ ≠ [] ↔
      ∃ p ∈ emotionItems ⟨j, f, a, s⟩,
        p.1 ≠ (dominant ⟨j, f, a, s⟩).1 ∧ 3 ≤ p.2) ∧
    (mixed_emotionsOf ⟨j, f, a, s⟩ ≠ [] →
      (generate_vibration_pattern j f a s).pattern
          = (vibration_patterns (dominant ⟨j, f, a, s⟩).1).pattern ++ "_mixed" ∧
      intensity_adjustmentOf ⟨j, f, a, s⟩ = 1.1 ∧
      frequency_adjustmentOf ⟨j, f, a, s⟩ = 1.2) ∧
    (mixed_emotionsOf ⟨j, f, a, s⟩ = [] →
      (generate_vibration_pattern j f a s).pattern
          = (vibration_patterns (dominant ⟨j, f, a, s⟩).1).pattern ∧
      intensity_adjustmentOf ⟨j, f, a, s⟩ = 1.0 ∧
      frequency_adjustmentOf ⟨j, f, a, s⟩ = 1.0) ∧
    (generate_vibration_pattern 5 3 0 0).pattern = "pulse_mixed" ∧
    (generate_vibration_pattern 5 2 0 0).pattern = "pulse" := by
  refine ⟨?_, ?_, ?_, by decide, by decide⟩
  · constructor
    · intro hne
      rw [mixed_emotionsOf, Ne, List.map_eq_nil_iff,
        List.filter_eq_nil_iff] at hne
      push_neg at hne
      obtain ⟨p, hp, hq⟩ := hne
      refine ⟨p, hp, ?_⟩
      simpa [Bool.and_eq_true, bne_iff_ne, decide_eq_true_eq] using hq
    · intro ⟨p, hp, hq⟩
      rw [mixed_emotionsOf, Ne, List.map_eq_nil_iff, List.filter_eq_nil_iff]
      push_neg
      refine ⟨p, hp, ?_⟩
      simpa [Bool.and_eq_true, bne_iff_ne, decide_eq_true_eq] using hq
  · intro hne
    refine ⟨?_, ?_, ?_⟩
    · rw [generate_pattern_eq j f a s h, pattern_typeOf, if_pos hne]
    · rw [intensity_adjustmentOf, if_pos hne]
    · rw [frequency_adjustmentOf, if_pos hne]
  · intro hnil
    refine ⟨?_, ?_, ?_⟩
    · rw [generate_pattern_eq j f a s h, pattern_typeOf,
        if_neg (by simp [hnil])]
    · rw [intensity_adjustmentOf, if_neg (by simp [hnil])]
    · rw [frequency_adjustmentOf, if_neg (by simp [hnil])]

/-- C4 witness: the adjustment clauses applied at the two concrete
vectors of the claim. -/
theorem mixed_adjustment_iff_witness :
    intensity_adjustmentOf ⟨5, 3, 0, 0⟩ = 1.1 ∧
    frequency_adjustmentOf ⟨5, 2, 0, 0⟩ = 1.0 :=
  ⟨((mixed_adjustment_iff 5 3 0 0 (by decide)).2.1 (by decide)).2.1,
   ((mixed_adjustment_iff 5 2 0 0 (by decide)).2.2.1 (by decide)).2.2⟩

/-- On a nonzero dominant value, `from_emotion_values` emits a
non-empty step list: each of the four reachable presets has steps. -/
theorem from_emotion_values_steps_ne_nil (j f a s : ℕ)
    (h : (dominant ⟨j, f, a, s⟩).2 ≠ 0) :
    (VibrationPatternGenerator.from_emotion_values j f a s).steps ≠ [] := by
  unfold VibrationPatternGenerator.from_emotion_values
  simp only [h, if_false, ite_false, if_neg h]
  cases hd : (dominant ⟨j, f, a, s⟩).1 <;>
    simp [hd, emotion_map, EmotionVibrationPatterns.get_pattern,
      EmotionVibrationPatterns.joy, EmotionVibrationPatterns.anger,
      EmotionVibrationPatterns.sorrow, EmotionVibrationPatterns.pleasure]

/-- C6 counterexample: at the pure-joy vector, the entry point of
vibration_server.py reports the dominant emotion's name `"joy"` as its
pattern field, not the table entry `"pulse"`, so the claim fails at that
cited implementation. -/
theorem server_pattern_is_emotion_name :
    (VibrationServer.generate_vibration_pattern 5 0 0 0).pattern = "joy" ∧
    (VibrationServer.generate_vibration_pattern 5 0 0 0).pattern
      ≠ (vibration_patterns (dominant ⟨5, 0, 0, 0⟩).1).pattern ∧
    (vibration_patterns (dominant ⟨5, 0, 0, 0⟩).1).pattern = "pulse" := by
  refine ⟨by decide, by decide, rfl⟩

/-- C6 (amended): with a nonzero dominant value and no mixed-emotion
trigger, the wifi-server generator reports the fixed table entry of the
dominant emotion — the table mapping joy to pulse, fun to wave, anger to
burst and sad to fade — while the vibration_server.py entry point
instead reports the dominant emotion's name as its pattern field. -/
theorem pattern_type_table_amended (j f a s : ℕ)
    (h : (dominant ⟨j, f, a, s⟩).2 ≠ 0)
    (hm : mixed_emotionsOf ⟨j, f, a, s⟩ = []) :
    (generate_vibration_pattern j f a s).pattern
      = (vibration_patterns (dominant ⟨j, f, a, s⟩).1).pattern ∧
    (vibration_patterns Emotion.joy).pattern = "pulse" ∧
    (vibration_patterns Emotion.fun_).pattern = "wave" ∧
    (vibration_patterns Emotion.anger).pattern = "burst" ∧
    (vibration_patterns Emotion.sad).pattern = "fade" ∧
    (VibrationServer.generate_vibration_pattern j f a s).pattern
      = Emotion.pyName (dominant ⟨j, f, a, s⟩).1 := by
  refine ⟨?_, rfl, rfl, rfl, rfl, ?_⟩
  · rw [generate_pattern_eq j f a s h, pattern_typeOf, if_neg (by simp [hm])]
  · have hsteps := from_emotion_values_steps_ne_nil j f a s h
    have hcond : ¬ ((dominant ⟨j, f, a, s⟩).2 = 0 ∨
        (VibrationPatternGenerator.from_emotion_values j f a s).steps = []) := by
      push_neg
      exact ⟨h, hsteps⟩
    unfold VibrationServer.generate_vibration_pattern
    simp only [if_neg hcond]

/-- C6 witness: the amended statement applied to the pure-anger vector:
the wifi server reports `burst`, vibration_server.py reports `anger`. -/
theorem pattern_type_table_amended_witness :
    (generate_vibration_pattern 0 0 5 0).pattern
      = (vibration_patterns (dominant ⟨0, 0, 5, 0⟩).1).pattern ∧
    (VibrationServer.generate_vibration_pattern 0 0 5 0).pattern
      = Emotion.pyName (dominant ⟨0, 0, 5, 0⟩).1 ∧
    (VibrationServer.generate_vibration_pattern 0 0 5 0).pattern
      = "anger" :=
  ⟨(pattern_type_table_amended 0 0 5 0 (by decide) (by decide)).1,
   (pattern_type_table_amended 0 0 5 0 (by decide) (by decide)).2.2.2.2.2,
   by decide⟩

/-- C10: `create_custom_pattern` with type `"burst"` returns exactly
three times the requested repeat count and the fixed 100 ms / 50 ms step
durations regardless of `duration_ms`, while every other pattern type —
pulse, wave, fade, or the unknown-type fallback — keeps the requested
repeat count unchanged. -/
theorem create_custom_pattern_repeat
    (pt : String) (i : ℚ) (d rc : ℕ) :
    (VibrationPatternGenerator.create_custom_pattern "burst" i d rc).repeat_count
      = rc * 3 ∧
    (VibrationPatternGenerator.create_custom_pattern "burst" i d rc).steps.map
        VibrationStep.duration = [100, 50] ∧
    (pt ≠ "burst" →
      (VibrationPatternGenerator.create_custom_pattern pt i d rc).repeat_count
        = rc) := by
  refine ⟨rfl, rfl, ?_⟩
  intro h
  unfold VibrationPatternGenerator.create_custom_pattern
  split_ifs <;> simp_all

/-- C10 witness: the non-burst clause applied to the `"pulse"` type. -/
theorem create_custom_pattern_repeat_witness :
    (VibrationPatternGenerator.create_custom_pattern "pulse" 0.5 400 2).repeat_count
      = 2 :=
  (create_custom_pattern_repeat "pulse" 0.5 400 2).2.2 (by decide)
